import Mathlib

/-!
# Port GitOps controller: webhook handlers

A shallow embedding of `port-integration/controller/main.go`.

* A Go `interface{}` value is a `Value`; a `map[string]interface{}` is an
  association list read with `List.lookup` (a missing key reads as `nil`).
* A failed type assertion `x.(T)` is a run-time panic: the field readers return
  `none` and the handler result is `Outcome.panic`.
* The helper functions at the bottom of `main.go` (`updateImageVersion`,
  `createArgoApplication`, ...) return a Go `error`. The handlers branch on that
  error, so the handlers are embedded over a record `Collaborators` that gives
  the error each helper returns (`none` is `nil`); the bodies written in
  `main.go` are the instance `sourceHelpers`.
* Every helper call a handler makes is recorded, in order, in `Result.calls`,
  every `log.Printf` of the handler in `Result.logs`, and the `c.JSON` reply (or
  the panic) in `Result.resp`.
* `time.Now().Format(time.RFC3339)` is the parameter `now`.
-/

namespace Controller

/-! ## Values -/

/-- A finite `float64`, `mant * 2 ^ exp`: what `encoding/json` stores for a JSON number. -/
structure Float64 where
  mant : Int
  exp : Int
  deriving DecidableEq, Repr

/-- The value of a finite `float64` truncated toward zero, as an unbounded integer. -/
def Float64.trunc (f : Float64) : Int :=
  if 0 ≤ f.exp then f.mant * 2 ^ f.exp.toNat else Int.tdiv f.mant (2 ^ (-f.exp).toNat)

/-- Go `int(f)` with the 64-bit `int` of the controller's platform: truncation toward
zero when the result fits in `int64`; outside that range the conversion is
implementation-specific in Go, and amd64 yields the least `int64`, which is the value
taken here. -/
def Float64.toInt (f : Float64) : Int :=
  if -9223372036854775808 ≤ f.trunc ∧ f.trunc < 9223372036854775808 then f.trunc
  else -9223372036854775808

/-- The dynamic value of a Go `interface{}`. `encoding/json` produces `null`, `bool`,
`float64`, `string`, `slice` and `map`; the handlers also store Go `int`s in the maps
they build. -/
inductive Value where
  | null
  | bool (b : Bool)
  | float64 (f : Float64)
  | string (s : String)
  | int (i : Int)
  | slice (xs : List Value)
  | map (kv : List (String × Value))

mutual
/-- Decidable equality of values. -/
def Value.decEq : (a b : Value) → Decidable (a = b)
  | .null, .null => isTrue rfl
  | .bool a, .bool b =>
    if h : a = b then isTrue (congrArg Value.bool h)
    else isFalse (fun e => h (Value.bool.inj e))
  | .float64 a, .float64 b =>
    if h : a = b then isTrue (congrArg Value.float64 h)
    else isFalse (fun e => h (Value.float64.inj e))
  | .string a, .string b =>
    if h : a = b then isTrue (congrArg Value.string h)
    else isFalse (fun e => h (Value.string.inj e))
  | .int a, .int b =>
    if h : a = b then isTrue (congrArg Value.int h)
    else isFalse (fun e => h (Value.int.inj e))
  | .slice a, .slice b =>
    match Value.decEqList a b with
    | isTrue h => isTrue (congrArg Value.slice h)
    | isFalse h => isFalse (fun e => h (Value.slice.inj e))
  | .map a, .map b =>
    match Value.decEqMap a b with
    | isTrue h => isTrue (congrArg Value.map h)
    | isFalse h => isFalse (fun e => h (Value.map.inj e))
  | .null, .bool _ | .null, .float64 _ | .null, .string _ | .null, .int _
  | .null, .slice _ | .null, .map _
  | .bool _, .null | .bool _, .float64 _ | .bool _, .string _ | .bool _, .int _
  | .bool _, .slice _ | .bool _, .map _
  | .float64 _, .null | .float64 _, .bool _ | .float64 _, .string _ | .float64 _, .int _
  | .float64 _, .slice _ | .float64 _, .map _
  | .string _, .null | .string _, .bool _ | .string _, .float64 _ | .string _, .int _
  | .string _, .slice _ | .string _, .map _
  | .int _, .null | .int _, .bool _ | .int _, .float64 _ | .int _, .string _
  | .int _, .slice _ | .int _, .map _
  | .slice _, .null | .slice _, .bool _ | .slice _, .float64 _ | .slice _, .string _
  | .slice _, .int _ | .slice _, .map _
  | .map _, .null | .map _, .bool _ | .map _, .float64 _ | .map _, .string _
  | .map _, .int _ | .map _, .slice _ => isFalse (fun e => Value.noConfusion e)
/-- Decidable equality of slices of values. -/
def Value.decEqList : (a b : List Value) → Decidable (a = b)
  | [], [] => isTrue rfl
  | x :: xs, y :: ys =>
    match Value.decEq x y, Value.decEqList xs ys with
    | isTrue h, isTrue t => isTrue (by rw [h, t])
    | isFalse h, _ => isFalse (fun e => h (List.cons.inj e).1)
    | _, isFalse t => isFalse (fun e => t (List.cons.inj e).2)
  | [], _ :: _ => isFalse (fun e => List.noConfusion e)
  | _ :: _, [] => isFalse (fun e => List.noConfusion e)
/-- Decidable equality of key/value lists. -/
def Value.decEqMap : (a b : List (String × Value)) → Decidable (a = b)
  | [], [] => isTrue rfl
  | (k, x) :: xs, (l, y) :: ys =>
    if hk : k = l then
      match Value.decEq x y, Value.decEqMap xs ys with
      | isTrue h, isTrue t => isTrue (by rw [hk, h, t])
      | isFalse h, _ => isFalse (fun e => h (Prod.mk.inj (List.cons.inj e).1).2)
      | _, isFalse t => isFalse (fun e => t (List.cons.inj e).2)
    else isFalse (fun e => hk (Prod.mk.inj (List.cons.inj e).1).1)
  | [], _ :: _ => isFalse (fun e => List.noConfusion e)
  | _ :: _, [] => isFalse (fun e => List.noConfusion e)
end

instance : DecidableEq Value := Value.decEq

/-- Go `map[string]interface{}` (a `nil` map reads like the empty one). -/
abbrev Props := List (String × Value)

/-- Go `m[k] = v` on a map: the binding of `k` is replaced, or added. -/
def Props.set (m : Props) (k : String) (v : Value) : Props :=
  if m.any (fun kv => kv.1 == k) then m.map (fun kv => if kv.1 == k then (k, v) else kv)
  else m ++ [(k, v)]

/-- The keys of a map. -/
def Props.keys (m : Props) : List String := m.map Prod.fst

/-- Go `m[k]`: the value stored under `k`, the `nil` interface when there is none. -/
def index (m : Props) (k : String) : Value := (m.lookup k).getD .null

/-- Go `x.(string)`; `none` is the run-time panic of a failed assertion. -/
def assertString : Value → Option String
  | .string s => some s
  | _ => none

/-- Go `x.(bool)`; `none` is the run-time panic of a failed assertion. -/
def assertBool : Value → Option Bool
  | .bool b => some b
  | _ => none

/-- Go `x.(float64)`; `none` is the run-time panic of a failed assertion. -/
def assertFloat64 : Value → Option Float64
  | .float64 f => some f
  | _ => none

/-- Go `fmt.Sprintf("%s-%s", a, b)`. -/
def sprintfDash (a b : String) : String := a ++ "-" ++ b

/-! ## Payloads (`main.go` lines 21-60) -/

structure PortEntity where
  Identifier : String
  Blueprint : String
  Properties : Props
  deriving DecidableEq

structure PortContext where
  Entity : String
  Blueprint : String
  RunID : String
  UserEmail : String
  deriving DecidableEq

structure PortWebhookPayload where
  Action : String
  Entity : PortEntity
  Context : PortContext
  Properties : Props
  deriving DecidableEq

structure ResourceRequests where
  CPU : String
  Memory : String
  deriving DecidableEq

structure MicroserviceManifest where
  Name : String
  Team : String := ""
  Language : String := ""
  Framework : String := ""
  Port : Int := 0
  Replicas : Int := 0
  Resources : ResourceRequests := ⟨"", ""⟩
  Environment : List (String × String) := []
  Database : Bool := false
  Redis : Bool := false
  Public : Bool := false
  deriving DecidableEq

/-- The package-level configuration variables (`main.go` lines 104-113). -/
structure Globals where
  gitRepoURL : String
  gitToken : String
  argoCDServer : String
  argoCDToken : String
  portClientID : String
  portSecret : String
  gitCacheDir : String := "/git-cache"
  deriving DecidableEq

/-! ## Helper calls and handler results -/

/-- One call of a helper function of `main.go` lines 444-496, with its arguments. -/
inductive Call where
  | createMicroserviceRepo (manifest : MicroserviceManifest) (template : String)
  | createArgoApplication (manifest : MicroserviceManifest) (environment : String)
  | updateImageVersion (serviceName environment version : String)
  | updateDeploymentResources (serviceName environment : String) (replicas : Int)
      (cpuLimit memoryLimit : String)
  | getPreviousVersion (serviceName environment : String)
  | createPortEntity (identifier blueprint : String) (properties : Props)
  | updatePortEntity (identifier blueprint : String) (properties : Props)
  deriving DecidableEq

/-- The Go `error` each helper returns (`none` is `nil`, `some msg` an error whose
`Error()` is `msg`); `getPreviousVersion` also returns a version. -/
structure Collaborators where
  createMicroserviceRepo : MicroserviceManifest → String → Option String
  createArgoApplication : MicroserviceManifest → String → Option String
  updateImageVersion : String → String → String → Option String
  updateDeploymentResources : String → String → Int → String → String → Option String
  getPreviousVersion : String → String → String × Option String
  createPortEntity : String → String → Props → Option String
  updatePortEntity : String → String → Props → Option String

/-- An argument of a `log.Printf` line. -/
inductive LogArg where
  | payload (p : PortWebhookPayload)
  | str (s : String)
  | err (e : String)
  deriving DecidableEq

/-- One `log.Printf(format, args...)` of a handler. -/
structure LogLine where
  format : String
  args : List LogArg
  deriving DecidableEq

/-- What the handler answers: `c.JSON(status, body)`, or a run-time panic (which
`gin.Default()`'s recovery middleware turns into an empty HTTP 500). -/
inductive Outcome where
  | json (status : Nat) (body : Props)
  | panic
  deriving DecidableEq

/-- The HTTP status the handler itself wrote, if it wrote one. -/
def Outcome.status : Outcome → Option Nat
  | .json s _ => some s
  | .panic => none

structure Result where
  calls : List Call
  logs : List LogLine
  resp : Outcome
  deriving DecidableEq

/-- The result of `c.ShouldBindJSON(&payload)`: the bound payload or the bind error. -/
abbrev Bind := Except String PortWebhookPayload

/-- The error `h` returns for a call (for `getPreviousVersion`, its error component). -/
def Collaborators.outcome (h : Collaborators) : Call → Option String
  | .createMicroserviceRepo m t => h.createMicroserviceRepo m t
  | .createArgoApplication m e => h.createArgoApplication m e
  | .updateImageVersion s e v => h.updateImageVersion s e v
  | .updateDeploymentResources s e r c m => h.updateDeploymentResources s e r c m
  | .getPreviousVersion s e => (h.getPreviousVersion s e).2
  | .createPortEntity i b p => h.createPortEntity i b p
  | .updatePortEntity i b p => h.updatePortEntity i b p

/-- Calls that write to the catalog (Port.io). -/
def Call.isCatalogWrite : Call → Bool
  | .createPortEntity _ _ _ => true
  | .updatePortEntity _ _ _ => true
  | _ => false

/-- Calls that write to the manifest repository. -/
def Call.isManifestWrite : Call → Bool
  | .createMicroserviceRepo _ _ => true
  | .updateImageVersion _ _ _ => true
  | .updateDeploymentResources _ _ _ _ _ => true
  | _ => false

/-- Calls that write to the application registry (ArgoCD). -/
def Call.isRegistryWrite : Call → Bool
  | .createArgoApplication _ _ => true
  | _ => false

/-! ## Helper bodies as written in `main.go` lines 444-496 -/

def createMicroserviceRepo (_manifest : MicroserviceManifest) (_template : String) :
    Option String := none

def createArgoApplication (_manifest : MicroserviceManifest) (_environment : String) :
    Option String := none

def updateImageVersion (_serviceName _environment _version : String) : Option String := none

def updateDeploymentResources (_serviceName _environment : String) (_replicas : Int)
    (_cpuLimit _memoryLimit : String) : Option String := none

def getPreviousVersion (_serviceName _environment : String) : String × Option String :=
  ("v1.0.0", none)

def createPortEntity (_identifier _blueprint : String) (_properties : Props) :
    Option String := none

def updatePortEntity (_identifier _blueprint : String) (_properties : Props) :
    Option String := none

/-- The helpers exactly as `main.go` defines them. -/
def sourceHelpers : Collaborators :=
  { createMicroserviceRepo := createMicroserviceRepo
    createArgoApplication := createArgoApplication
    updateImageVersion := updateImageVersion
    updateDeploymentResources := updateDeploymentResources
    getPreviousVersion := getPreviousVersion
    createPortEntity := createPortEntity
    updatePortEntity := updatePortEntity }

/-! ## Reading the request fields

Each handler first reads its fields with type assertions; `none` is the panic of
the first assertion that fails. No helper is called before all fields are read. -/

/-- Go `v := dflt; if x, ok := m[k]; ok { v = x.(string) }`. -/
def optString (m : Props) (k : String) (dflt : String) : Option String :=
  match m.lookup k with
  | some x => assertString x
  | none => some dflt

/-- Go `v := dflt; if x, ok := m[k]; ok { v = x.(bool) }`. -/
def optBool (m : Props) (k : String) (dflt : Bool) : Option Bool :=
  match m.lookup k with
  | some x => assertBool x
  | none => some dflt

/-- Fields of `handleCreateMicroservice` (lines 155-162):
`(serviceName, team, language, framework, template)`. -/
def createFields (payload : PortWebhookPayload) :
    Option (String × String × String × String × String) :=
  match assertString (index payload.Properties "name") with
  | none => none
  | some serviceName =>
  match assertString (index payload.Properties "team") with
  | none => none
  | some team =>
  match assertString (index payload.Properties "language") with
  | none => none
  | some language =>
  match assertString (index payload.Properties "framework") with
  | none => none
  | some framework =>
  match optString payload.Properties "template" "basic" with
  | none => none
  | some template => some (serviceName, team, language, framework, template)

/-- Fields of `handleDeploy` (lines 222-228):
`(serviceName, environment, version, autoSync)`. -/
def deployFields (payload : PortWebhookPayload) : Option (String × String × String × Bool) :=
  match assertString (index payload.Properties "service") with
  | none => none
  | some serviceName =>
  match assertString (index payload.Properties "environment") with
  | none => none
  | some environment =>
  match assertString (index payload.Properties "version") with
  | none => none
  | some version =>
  match optBool payload.Properties "auto_sync" true with
  | none => none
  | some autoSync => some (serviceName, environment, version, autoSync)

/-- Fields of `handlePromote` (lines 278-285):
`(sourceEnv, serviceName, currentVersion, targetEnv, runTests)`. -/
def promoteFields (payload : PortWebhookPayload) :
    Option (String × String × String × String × Bool) :=
  match assertString (index payload.Entity.Properties "environment") with
  | none => none
  | some sourceEnv =>
  match assertString (index payload.Entity.Properties "service") with
  | none => none
  | some serviceName =>
  match assertString (index payload.Entity.Properties "version") with
  | none => none
  | some currentVersion =>
  match assertString (index payload.Properties "target_environment") with
  | none => none
  | some targetEnv =>
  match optBool payload.Properties "run_tests" true with
  | none => none
  | some runTests => some (sourceEnv, serviceName, currentVersion, targetEnv, runTests)

/-- Lines 333-335 of `handleRollback`: `if tv, ok := m["target_version"]; ok && tv != ""`
then `tv.(string)`. The outer `none` is the panic of that assertion; `some none` is the
`else` branch (no explicit target: key absent, or the empty string). -/
def explicitTarget (m : Props) : Option (Option String) :=
  match m.lookup "target_version" with
  | none => some none
  | some (.string "") => some none
  | some tv =>
    match assertString tv with
    | none => none
    | some s => some (some s)

/-- Fields of `handleRollback` (lines 328-335):
`(serviceName, environment, reason, explicit target version)`. -/
def rollbackFields (payload : PortWebhookPayload) :
    Option (String × String × String × Option String) :=
  match assertString (index payload.Entity.Properties "service") with
  | none => none
  | some serviceName =>
  match assertString (index payload.Entity.Properties "environment") with
  | none => none
  | some environment =>
  match assertString (index payload.Properties "reason") with
  | none => none
  | some reason =>
  match explicitTarget payload.Properties with
  | none => none
  | some target => some (serviceName, environment, reason, target)

/-- Fields of `handleScale` (lines 383-393):
`(serviceName, environment, replicas, cpuLimit, memoryLimit)`. -/
def scaleFields (payload : PortWebhookPayload) :
    Option (String × String × Int × String × String) :=
  match assertString (index payload.Entity.Properties "service") with
  | none => none
  | some serviceName =>
  match assertString (index payload.Entity.Properties "environment") with
  | none => none
  | some environment =>
  match assertFloat64 (index payload.Properties "replicas") with
  | none => none
  | some replicas =>
  match optString payload.Properties "cpu_limit" "" with
  | none => none
  | some cpuLimit =>
  match optString payload.Properties "memory_limit" "" with
  | none => none
  | some memoryLimit => some (serviceName, environment, replicas.toInt, cpuLimit, memoryLimit)

/-! ## The handlers -/

/-- Go `if err := f(...); err != nil { log.Printf(format, err) }`: the line logged for a
catalog write whose error is only logged. -/
def logIfErr (format : String) : Option String → List LogLine
  | some err => [⟨format, [.err err]⟩]
  | none => []

/-- The reply `c.JSON(code, gin.H{"error": err.Error()})`. -/
def errorReply (code : Nat) (err : String) : Outcome := .json code [("error", .string err)]

/-- The manifest `handleCreateMicroservice` builds (lines 165-179). -/
def newManifest (serviceName team language framework : String) : MicroserviceManifest :=
  { Name := serviceName, Team := team, Language := language, Framework := framework,
    Port := 8080, Replicas := 2, Resources := ⟨"200m", "256Mi"⟩,
    Database := false, Redis := false, Public := false }

/-- Lines 145-211. -/
def handleCreateMicroservice (g : Globals) (h : Collaborators) (now : String)
    (bind : Bind) : Result :=
  match bind with
  | .error err => ⟨[], [], errorReply 400 err⟩
  | .ok payload =>
    let l0 : List LogLine := [⟨"Creating microservice: %+v", [.payload payload]⟩]
    match createFields payload with
    | none => ⟨[], l0, .panic⟩
    | some (serviceName, team, language, framework, template) =>
      let manifest := newManifest serviceName team language framework
      let c1 := Call.createMicroserviceRepo manifest template
      match h.createMicroserviceRepo manifest template with
      | some err =>
        ⟨[c1], l0 ++ [⟨"Error creating microservice repo: %v", [.err err]⟩], errorReply 500 err⟩
      | none =>
        let c2 := Call.createArgoApplication manifest "dev"
        match h.createArgoApplication manifest "dev" with
        | some err =>
          ⟨[c1, c2], l0 ++ [⟨"Error creating ArgoCD application: %v", [.err err]⟩],
            errorReply 500 err⟩
        | none =>
          let properties : Props :=
            [("status", .string "created"),
             ("repository", .string (g.gitRepoURL ++ "/services/" ++ serviceName)),
             ("argocd_app", .string (serviceName ++ "-dev")),
             ("created_at", .string now)]
          let c3 := Call.updatePortEntity serviceName "microservice" properties
          ⟨[c1, c2, c3],
            l0 ++ logIfErr "Error updating Port entity: %v"
              (h.updatePortEntity serviceName "microservice" properties),
            .json 200
              [("message", .string "Microservice created successfully"),
               ("service", .string serviceName),
               ("repository", .string (g.gitRepoURL ++ "/services/" ++ serviceName)),
               ("argocd_app", .string (serviceName ++ "-dev"))]⟩

/-- The property map `handleDeploy` sends to the catalog (lines 247-255). -/
def deployProperties (serviceName environment version : String) (autoSync : Bool)
    (now : String) : Props :=
  [("service", .string serviceName),
   ("environment", .string environment),
   ("version", .string version),
   ("status", .string "Progressing"),
   ("sync_status", .string "OutOfSync"),
   ("auto_sync", .bool autoSync),
   ("deployed_at", .string now)]

/-- Lines 213-266. -/
def handleDeploy (_g : Globals) (h : Collaborators) (now : String) (bind : Bind) : Result :=
  match bind with
  | .error err => ⟨[], [], errorReply 400 err⟩
  | .ok payload =>
    let l0 : List LogLine := [⟨"Deploying service: %+v", [.payload payload]⟩]
    match deployFields payload with
    | none => ⟨[], l0, .panic⟩
    | some (serviceName, environment, version, autoSync) =>
      let c1 := Call.updateImageVersion serviceName environment version
      match h.updateImageVersion serviceName environment version with
      | some err =>
        ⟨[c1], l0 ++ [⟨"Error updating image version: %v", [.err err]⟩], errorReply 500 err⟩
      | none =>
        let manifest : MicroserviceManifest := { Name := serviceName }
        let c2 := Call.createArgoApplication manifest environment
        match h.createArgoApplication manifest environment with
        | some err =>
          ⟨[c1, c2], l0 ++ [⟨"Error creating/updating ArgoCD application: %v", [.err err]⟩],
            errorReply 500 err⟩
        | none =>
          let deploymentID := sprintfDash serviceName environment
          let properties := deployProperties serviceName environment version autoSync now
          let c3 := Call.createPortEntity deploymentID "deployment" properties
          ⟨[c1, c2, c3],
            l0 ++ logIfErr "Error creating Port deployment entity: %v"
              (h.createPortEntity deploymentID "deployment" properties),
            .json 200
              [("message", .string "Deployment initiated"),
               ("service", .string serviceName),
               ("environment", .string environment),
               ("version", .string version),
               ("argocd_app", .string (sprintfDash serviceName environment))]⟩

/-- Lines 268-317. -/
def handlePromote (_g : Globals) (h : Collaborators) (now : String) (bind : Bind) : Result :=
  match bind with
  | .error err => ⟨[], [], errorReply 400 err⟩
  | .ok payload =>
    let l0 : List LogLine := [⟨"Promoting deployment: %+v", [.payload payload]⟩]
    match promoteFields payload with
    | none => ⟨[], l0, .panic⟩
    | some (sourceEnv, serviceName, currentVersion, targetEnv, runTests) =>
      let c1 := Call.updateImageVersion serviceName targetEnv currentVersion
      match h.updateImageVersion serviceName targetEnv currentVersion with
      | some err =>
        ⟨[c1], l0 ++ [⟨"Error promoting to %s: %v", [.str targetEnv, .err err]⟩],
          errorReply 500 err⟩
      | none =>
        let deploymentID := sprintfDash serviceName targetEnv
        let properties : Props :=
          [("service", .string serviceName),
           ("environment", .string targetEnv),
           ("version", .string currentVersion),
           ("status", .string "Progressing"),
           ("sync_status", .string "OutOfSync"),
           ("promoted_from", .string sourceEnv),
           ("tests_run", .bool runTests),
           ("promoted_at", .string now)]
        let c2 := Call.createPortEntity deploymentID "deployment" properties
        ⟨[c1, c2],
          l0 ++ logIfErr "Error creating Port deployment entity: %v"
            (h.createPortEntity deploymentID "deployment" properties),
          .json 200
            [("message", .string "Promotion initiated"),
             ("service", .string serviceName),
             ("from", .string sourceEnv),
             ("to", .string targetEnv),
             ("version", .string currentVersion),
             ("tests_run", .bool runTests)]⟩

/-- The property map `handleRollback` sends to the catalog (lines 355-361). -/
def rollbackProperties (targetVersion reason now : String) : Props :=
  [("version", .string targetVersion),
   ("status", .string "Progressing"),
   ("sync_status", .string "OutOfSync"),
   ("rollback_reason", .string reason),
   ("rolled_back_at", .string now)]

/-- Lines 346-371 of `handleRollback`: the steps after the target version is known.
`calls` and `logs` are those made so far. -/
def rollbackTo (h : Collaborators) (now : String) (calls : List Call) (logs : List LogLine)
    (serviceName environment reason targetVersion : String) : Result :=
  let c1 := Call.updateImageVersion serviceName environment targetVersion
  match h.updateImageVersion serviceName environment targetVersion with
  | some err =>
    ⟨calls ++ [c1], logs ++ [⟨"Error rolling back: %v", [.err err]⟩], errorReply 500 err⟩
  | none =>
    let deploymentID := sprintfDash serviceName environment
    let properties := rollbackProperties targetVersion reason now
    let c2 := Call.updatePortEntity deploymentID "deployment" properties
    ⟨calls ++ [c1, c2],
      logs ++ logIfErr "Error updating Port deployment entity: %v"
        (h.updatePortEntity deploymentID "deployment" properties),
      .json 200
        [("message", .string "Rollback initiated"),
         ("service", .string serviceName),
         ("environment", .string environment),
         ("version", .string targetVersion),
         ("reason", .string reason)]⟩

/-- Lines 319-372. -/
def handleRollback (_g : Globals) (h : Collaborators) (now : String) (bind : Bind) : Result :=
  match bind with
  | .error err => ⟨[], [], errorReply 400 err⟩
  | .ok payload =>
    let l0 : List LogLine := [⟨"Rolling back deployment: %+v", [.payload payload]⟩]
    match rollbackFields payload with
    | none => ⟨[], l0, .panic⟩
    | some (serviceName, environment, reason, some targetVersion) =>
      rollbackTo h now [] l0 serviceName environment reason targetVersion
    | some (serviceName, environment, reason, none) =>
      let c0 := Call.getPreviousVersion serviceName environment
      match h.getPreviousVersion serviceName environment with
      | (_, some err) =>
        ⟨[c0], l0 ++ [⟨"Error getting previous version: %v", [.err err]⟩], errorReply 500 err⟩
      | (targetVersion, none) =>
        rollbackTo h now [c0] l0 serviceName environment reason targetVersion

/-- The map `updateData` that `handleScale` builds (lines 404-413). -/
def scaleUpdateData (replicas : Int) (cpuLimit memoryLimit now : String) : Props :=
  let updateData : Props := [("replicas", .int replicas), ("scaled_at", .string now)]
  let updateData :=
    if cpuLimit != "" then updateData.set "cpu_limit" (.string cpuLimit) else updateData
  if memoryLimit != "" then updateData.set "memory_limit" (.string memoryLimit) else updateData

/-- Lines 374-427. -/
def handleScale (_g : Globals) (h : Collaborators) (now : String) (bind : Bind) : Result :=
  match bind with
  | .error err => ⟨[], [], errorReply 400 err⟩
  | .ok payload =>
    let l0 : List LogLine := [⟨"Scaling resources: %+v", [.payload payload]⟩]
    match scaleFields payload with
    | none => ⟨[], l0, .panic⟩
    | some (serviceName, environment, replicas, cpuLimit, memoryLimit) =>
      let c1 := Call.updateDeploymentResources serviceName environment replicas cpuLimit
        memoryLimit
      match h.updateDeploymentResources serviceName environment replicas cpuLimit
          memoryLimit with
      | some err =>
        ⟨[c1], l0 ++ [⟨"Error scaling resources: %v", [.err err]⟩], errorReply 500 err⟩
      | none =>
        let deploymentID := sprintfDash serviceName environment
        let updateData := scaleUpdateData replicas cpuLimit memoryLimit now
        let c2 := Call.updatePortEntity deploymentID "deployment" updateData
        ⟨[c1, c2],
          l0 ++ logIfErr "Error updating Port deployment entity: %v"
            (h.updatePortEntity deploymentID "deployment" updateData),
          .json 200
            [("message", .string "Scaling initiated"),
             ("service", .string serviceName),
             ("environment", .string environment),
             ("replicas", .int replicas),
             ("cpu_limit", .string cpuLimit),
             ("memory_limit", .string memoryLimit)]⟩

/-! ## Routing (`main`, lines 124-130) -/

/-- The Port.io webhooks that `main` registers with a `PortWebhookPayload` handler. -/
inductive Webhook where
  | createMicroservice
  | deploy
  | promote
  | rollback
  | scale
  deriving DecidableEq

/-- The path each webhook is registered under. -/
def Webhook.path : Webhook → String
  | .createMicroservice => "/webhooks/create-microservice"
  | .deploy => "/webhooks/deploy"
  | .promote => "/webhooks/promote"
  | .rollback => "/webhooks/rollback"
  | .scale => "/webhooks/scale"

/-- The handler `main` registers for each webhook. -/
def Webhook.handler : Webhook → Globals → Collaborators → String → Bind → Result
  | .createMicroservice => handleCreateMicroservice
  | .deploy => handleDeploy
  | .promote => handlePromote
  | .rollback => handleRollback
  | .scale => handleScale

/-- Whether every field the webhook's handler reads is present with the asserted type. -/
def Webhook.wellFormed : Webhook → PortWebhookPayload → Bool
  | .createMicroservice, p => (createFields p).isSome
  | .deploy, p => (deployFields p).isSome
  | .promote, p => (promoteFields p).isSome
  | .rollback, p => (rollbackFields p).isSome
  | .scale, p => (scaleFields p).isSome

/-- One request as the server receives it: the webhook, the clock reading and the
bound body. -/
structure Request where
  webhook : Webhook
  now : String
  body : Bind

/-- The server handling requests one after the other. The handlers keep no state
between requests (the package variables are only read), so each result depends on
its own request alone. -/
def serve (g : Globals) (h : Collaborators) (reqs : List Request) : List Result :=
  reqs.map (fun r => r.webhook.handler g h r.now r.body)

/-- All helper calls made while serving the requests, oldest first. -/
def callsOf (rs : List Result) : List Call :=
  rs.foldr (fun r acc => r.calls ++ acc) []

/-! ## Reading the call record -/

/-- The calls made after the first application-registry write. -/
def afterRegistry : List Call → List Call
  | [] => []
  | c :: cs => if c.isRegistryWrite then cs else afterRegistry cs

/-- The compensating actions in a call record: manifest-repository writes issued
after the application-registry write. -/
def reverts (calls : List Call) : List Call :=
  (afterRegistry calls).filter Call.isManifestWrite

/-! ## Sample requests and collaborators -/

def demoGlobals : Globals :=
  { gitRepoURL := "https://git.example/acme/gitops", gitToken := "t", argoCDServer := "argo",
    argoCDToken := "a", portClientID := "id", portSecret := "s" }

def noEntity : PortEntity := ⟨"", "", []⟩

def deployRequest : PortWebhookPayload :=
  { Action := "deploy", Entity := noEntity, Context := ⟨"", "", "run-1", "dev@acme.io"⟩,
    Properties :=
      [("service", .string "api"), ("environment", .string "prod"),
       ("version", .string "v2")] }

/-- The manifest repository rejects every write. -/
def manifestDown : Collaborators :=
  { sourceHelpers with
    updateImageVersion := fun _ _ _ => some "push rejected"
    updateDeploymentResources := fun _ _ _ _ _ => some "push rejected"
    createMicroserviceRepo := fun _ _ => some "push rejected" }

/-- The application registry rejects every write. -/
def registryDown : Collaborators :=
  { sourceHelpers with createArgoApplication := fun _ _ => some "argocd unreachable" }

/-- The catalog rejects every write. -/
def catalogDown : Collaborators :=
  { sourceHelpers with
    createPortEntity := fun _ _ _ => some "port.io 503"
    updatePortEntity := fun _ _ _ => some "port.io 503" }

/-- The helpers `h` with the catalog writes answering `f` and `u` instead. -/
def Collaborators.withCatalog (h : Collaborators)
    (f u : String → String → Props → Option String) : Collaborators :=
  { h with createPortEntity := f, updatePortEntity := u }

def createRequest : PortWebhookPayload :=
  { Action := "create", Entity := noEntity, Context := ⟨"", "", "run-42", "dev@acme.io"⟩,
    Properties :=
      [("name", .string "api"), ("team", .string "platform"), ("language", .string "go"),
       ("framework", .string "gin")] }

def promoteRequest : PortWebhookPayload :=
  { Action := "promote",
    Entity := ⟨"api-staging", "deployment",
      [("service", .string "api"), ("environment", .string "staging"),
       ("version", .string "v9")]⟩,
    Context := ⟨"api-staging", "deployment", "run-3", "dev@acme.io"⟩,
    Properties := [("target_environment", .string "prod")] }

def rollbackRequest : PortWebhookPayload :=
  { Action := "rollback",
    Entity := ⟨"api-prod", "deployment",
      [("service", .string "api"), ("environment", .string "prod"),
       ("version", .string "v4")]⟩,
    Context := ⟨"api-prod", "deployment", "run-5", "dev@acme.io"⟩,
    Properties := [("reason", .string "bad release")] }

def scaleRequest : PortWebhookPayload :=
  { Action := "scale",
    Entity := ⟨"api-prod", "deployment",
      [("service", .string "api"), ("environment", .string "prod"),
       ("version", .string "v2")]⟩,
    Context := ⟨"api-prod", "deployment", "run-7", "dev@acme.io"⟩,
    Properties := [("replicas", .float64 ⟨5, 0⟩), ("cpu_limit", .string "500m")] }

/-! ## Vocabulary of the specification -/

/-- Whether a value is a string. -/
def Value.isString : Value → Bool
  | .string _ => true
  | _ => false

/-- Whether a value is a boolean. -/
def Value.isBool : Value → Bool
  | .bool _ => true
  | _ => false

/-- The field `k` is missing from the map or is not a string. -/
def missingOrNotString (m : Props) (k : String) : Bool :=
  match m.lookup k with
  | some x => !x.isString
  | none => true

/-- The field `k` is present in the map and is not a boolean. -/
def presentNotBool (m : Props) (k : String) : Bool :=
  match m.lookup k with
  | some x => !x.isBool
  | none => false

/-- A deploy request whose body parsed but whose properties are malformed or incomplete:
`service`, `environment` or `version` missing or not a string, or `auto_sync` present
but not a boolean. -/
def malformedDeploy (payload : PortWebhookPayload) : Bool :=
  missingOrNotString payload.Properties "service" ||
  missingOrNotString payload.Properties "environment" ||
  missingOrNotString payload.Properties "version" ||
  presentNotBool payload.Properties "auto_sync"

/-- The operation types of a `VersionEvent` (specification, section 3). -/
inductive OperationType where
  | Create
  | Deploy
  | Promote
  | Rollback
  | Scale
  deriving DecidableEq

/-- A `VersionEvent` of a deployment history (specification, section 3): the version the
event carries and the operation that produced it. -/
structure VersionEvent where
  version : String
  operationType : OperationType
  deriving DecidableEq

/-- The specification's rule for a rollback with no explicit target (section 3): among
the real version transitions of the history (Scale events skipped, newest last), the
version of the one before the current one; `none` when there is no such transition. -/
def specRollbackTarget (history : List VersionEvent) : Option String :=
  match (history.filter (fun ev => ev.operationType != .Scale)).reverse with
  | _current :: previous :: _ => some previous.version
  | _ => none

/-- The history `[v1, v2, v3(Scale carrying v2), v4]` of the specification, section 8. -/
def exampleHistory : List VersionEvent :=
  [⟨"v1", .Deploy⟩, ⟨"v2", .Deploy⟩, ⟨"v2", .Scale⟩, ⟨"v4", .Deploy⟩]

/-- A deploy request with no properties at all. -/
def emptyDeployRequest : PortWebhookPayload :=
  { Action := "deploy", Entity := noEntity, Context := ⟨"", "", "run-9", "dev@acme.io"⟩,
    Properties := [] }

/-! ## Theorems -/

/-- C2: for a well-formed deploy request, when the manifest write `updateImageVersion`
fails, `handleDeploy` replies HTTP 500 with that error and the only helper call it made
is the failed manifest write: no application-registry write and no catalog write. The
reply is stated as the literal `c.JSON(500, gin.H{"error": err.Error()})`. -/
theorem deploy_manifest_failure_is_terminal (g : Globals) (h : Collaborators) (now : String)
    (payload : PortWebhookPayload) (s e v : String) (a : Bool) (err : String)
    (wf : deployFields payload = some (s, e, v, a))
    (fail : h.updateImageVersion s e v = some err) :
    (handleDeploy g h now (.ok payload)).resp = .json 500 [("error", .string err)] ∧
    (handleDeploy g h now (.ok payload)).calls = [Call.updateImageVersion s e v] ∧
    (∀ c ∈ (handleDeploy g h now (.ok payload)).calls,
      c.isRegistryWrite = false ∧ c.isCatalogWrite = false) := by
  simp [handleDeploy, wf, fail, errorReply, Call.isRegistryWrite, Call.isCatalogWrite]

/-- C2 at the deploy of `api` to `prod` with the manifest repository down. -/
theorem deploy_manifest_failure_is_terminal_witness :
    deployFields deployRequest = some ("api", "prod", "v2", true) ∧
    manifestDown.updateImageVersion "api" "prod" "v2" = some "push rejected" ∧
    (handleDeploy demoGlobals manifestDown "2024-05-01T10:00:00Z" (.ok deployRequest)).resp
        = .json 500 [("error", .string "push rejected")] ∧
    (handleDeploy demoGlobals manifestDown "2024-05-01T10:00:00Z" (.ok deployRequest)).calls
        = [Call.updateImageVersion "api" "prod" "v2"] ∧
    (∀ c ∈ (handleDeploy demoGlobals manifestDown "2024-05-01T10:00:00Z"
        (.ok deployRequest)).calls, c.isRegistryWrite = false ∧ c.isCatalogWrite = false) :=
  ⟨by decide, by decide,
    deploy_manifest_failure_is_terminal demoGlobals manifestDown "2024-05-01T10:00:00Z"
      deployRequest "api" "prod" "v2" true "push rejected" (by decide) (by decide)⟩

/-- C3, as stated, fails: with the registry down, the deploy of `api` to `prod` makes the
manifest write and the registry call and nothing else, so the number of compensating
manifest writes is 0, not 1. -/
theorem deploy_registry_failure_no_revert_counterexample :
    deployFields deployRequest = some ("api", "prod", "v2", true) ∧
    registryDown.updateImageVersion "api" "prod" "v2" = none ∧
    registryDown.createArgoApplication { Name := "api" } "prod" = some "argocd unreachable" ∧
    ¬ (reverts (handleDeploy demoGlobals registryDown "2024-05-01T10:00:00Z"
        (.ok deployRequest)).calls).length = 1 := by
  decide

/-- C3 (amended): for a well-formed deploy request whose manifest write succeeds and whose
registry update `createArgoApplication` fails, `handleDeploy` replies HTTP 500 with the
registry error after exactly two calls, the manifest write and the registry update: it
issues no compensating revert and no catalog write; the manifest write stands. -/
theorem deploy_registry_failure_leaves_manifest (g : Globals) (h : Collaborators)
    (now : String) (payload : PortWebhookPayload) (s e v : String) (a : Bool) (err : String)
    (wf : deployFields payload = some (s, e, v, a))
    (manifestOk : h.updateImageVersion s e v = none)
    (fail : h.createArgoApplication { Name := s } e = some err) :
    (handleDeploy g h now (.ok payload)).resp = .json 500 [("error", .string err)] ∧
    (handleDeploy g h now (.ok payload)).calls =
      [Call.updateImageVersion s e v, Call.createArgoApplication { Name := s } e] ∧
    (∀ c ∈ (handleDeploy g h now (.ok payload)).calls, c.isCatalogWrite = false) ∧
    reverts (handleDeploy g h now (.ok payload)).calls = [] := by
  simp [handleDeploy, wf, manifestOk, fail, errorReply, reverts, afterRegistry,
    Call.isRegistryWrite, Call.isCatalogWrite]

/-- C3 (amended) at the deploy of `api` to `prod` with the registry down. -/
theorem deploy_registry_failure_leaves_manifest_witness :
    deployFields deployRequest = some ("api", "prod", "v2", true) ∧
    registryDown.updateImageVersion "api" "prod" "v2" = none ∧
    registryDown.createArgoApplication { Name := "api" } "prod" = some "argocd unreachable" ∧
    (handleDeploy demoGlobals registryDown "2024-05-01T10:00:00Z" (.ok deployRequest)).resp
        = .json 500 [("error", .string "argocd unreachable")] ∧
    (handleDeploy demoGlobals registryDown "2024-05-01T10:00:00Z" (.ok deployRequest)).calls =
      [Call.updateImageVersion "api" "prod" "v2",
       Call.createArgoApplication { Name := "api" } "prod"] ∧
    (∀ c ∈ (handleDeploy demoGlobals registryDown "2024-05-01T10:00:00Z"
      (.ok deployRequest)).calls, c.isCatalogWrite = false) ∧
    reverts (handleDeploy demoGlobals registryDown "2024-05-01T10:00:00Z"
      (.ok deployRequest)).calls = [] :=
  ⟨by decide, by decide, by decide,
    deploy_registry_failure_leaves_manifest demoGlobals registryDown "2024-05-01T10:00:00Z"
      deployRequest "api" "prod" "v2" true "argocd unreachable" (by decide) (by decide)
      (by decide)⟩

/-- C4: for each of the create, deploy, promote, rollback and scale handlers and every
well-formed request, when every step before the catalog write succeeds, the handler
replies HTTP 200, the catalog write is its last call (nothing is reverted after it), and
the reply and the calls are the same whatever the catalog write returns, so the same
when it fails as when it succeeds. -/
theorem catalog_failure_not_fatal (w : Webhook) (g : Globals) (h : Collaborators)
    (now : String) (payload : PortWebhookPayload)
    (wf : w.wellFormed payload = true)
    (stepsOk : ∀ c ∈ (w.handler g h now (.ok payload)).calls,
      c.isCatalogWrite = false → h.outcome c = none) :
    (w.handler g h now (.ok payload)).resp.status = some 200 ∧
    (∃ pre c, (w.handler g h now (.ok payload)).calls = pre ++ [c] ∧
      c.isCatalogWrite = true ∧ ∀ x ∈ pre, x.isCatalogWrite = false) ∧
    (∀ f u, (w.handler g (h.withCatalog f u) now (.ok payload)).resp =
        (w.handler g h now (.ok payload)).resp ∧
      (w.handler g (h.withCatalog f u) now (.ok payload)).calls =
        (w.handler g h now (.ok payload)).calls) := by
  cases w with
  | createMicroservice =>
    simp only [Webhook.wellFormed, Option.isSome_iff_exists] at wf
    obtain ⟨⟨s, t, l, f, tpl⟩, wf⟩ := wf
    cases hu : h.createMicroserviceRepo (newManifest s t l f) tpl with
    | some err =>
      have := stepsOk (.createMicroserviceRepo (newManifest s t l f) tpl)
        (by simp [Webhook.handler, handleCreateMicroservice, wf, hu]) rfl
      simp [Collaborators.outcome, hu] at this
    | none =>
      cases ha : h.createArgoApplication (newManifest s t l f)
          "dev" with
      | some err =>
        have := stepsOk (.createArgoApplication (newManifest s t l f) "dev")
          (by simp [Webhook.handler, handleCreateMicroservice, wf, hu, ha]) rfl
        simp [Collaborators.outcome, ha] at this
      | none =>
        simp [Webhook.handler, handleCreateMicroservice, wf, hu, ha,
          Collaborators.withCatalog, Outcome.status]
        exact ⟨[_, _], _, rfl, rfl, by simp [Call.isCatalogWrite]⟩
  | deploy =>
    simp only [Webhook.wellFormed, Option.isSome_iff_exists] at wf
    obtain ⟨⟨s, e, v, a⟩, wf⟩ := wf
    cases hu : h.updateImageVersion s e v with
    | some err =>
      have := stepsOk (.updateImageVersion s e v)
        (by simp [Webhook.handler, handleDeploy, wf, hu]) rfl
      simp [Collaborators.outcome, hu] at this
    | none =>
      cases ha : h.createArgoApplication { Name := s } e with
      | some err =>
        have := stepsOk (.createArgoApplication { Name := s } e)
          (by simp [Webhook.handler, handleDeploy, wf, hu, ha]) rfl
        simp [Collaborators.outcome, ha] at this
      | none =>
        simp [Webhook.handler, handleDeploy, wf, hu, ha, Collaborators.withCatalog,
          Outcome.status]
        exact ⟨[_, _], _, rfl, rfl, by simp [Call.isCatalogWrite]⟩
  | promote =>
    simp only [Webhook.wellFormed, Option.isSome_iff_exists] at wf
    obtain ⟨⟨src, s, v, tgt, rt⟩, wf⟩ := wf
    cases hu : h.updateImageVersion s tgt v with
    | some err =>
      have := stepsOk (.updateImageVersion s tgt v)
        (by simp [Webhook.handler, handlePromote, wf, hu]) rfl
      simp [Collaborators.outcome, hu] at this
    | none =>
      simp [Webhook.handler, handlePromote, wf, hu, Collaborators.withCatalog,
        Outcome.status]
      exact ⟨[_], _, rfl, rfl, by simp [Call.isCatalogWrite]⟩
  | rollback =>
    simp only [Webhook.wellFormed, Option.isSome_iff_exists] at wf
    obtain ⟨⟨s, e, reason, tgt⟩, wf⟩ := wf
    cases tgt with
    | some v =>
      cases hu : h.updateImageVersion s e v with
      | some err =>
        have := stepsOk (.updateImageVersion s e v)
          (by simp [Webhook.handler, handleRollback, rollbackTo, wf, hu]) rfl
        simp [Collaborators.outcome, hu] at this
      | none =>
        simp [Webhook.handler, handleRollback, rollbackTo, wf, hu,
          Collaborators.withCatalog, Outcome.status]
        exact ⟨[_], _, rfl, rfl, by simp [Call.isCatalogWrite]⟩
    | none =>
      rcases hp : h.getPreviousVersion s e with ⟨v, perr⟩
      cases perr with
      | some err =>
        have := stepsOk (.getPreviousVersion s e)
          (by simp [Webhook.handler, handleRollback, wf, hp]) rfl
        simp [Collaborators.outcome, hp] at this
      | none =>
        cases hu : h.updateImageVersion s e v with
        | some err =>
          have := stepsOk (.updateImageVersion s e v)
            (by simp [Webhook.handler, handleRollback, rollbackTo, wf, hp, hu]) rfl
          simp [Collaborators.outcome, hu] at this
        | none =>
          simp [Webhook.handler, handleRollback, rollbackTo, wf, hp, hu,
            Collaborators.withCatalog, Outcome.status]
          exact ⟨[_, _], _, rfl, rfl, by simp [Call.isCatalogWrite]⟩
  | scale =>
    simp only [Webhook.wellFormed, Option.isSome_iff_exists] at wf
    obtain ⟨⟨s, e, n, cpu, mem⟩, wf⟩ := wf
    cases hu : h.updateDeploymentResources s e n cpu mem with
    | some err =>
      have := stepsOk (.updateDeploymentResources s e n cpu mem)
        (by simp [Webhook.handler, handleScale, wf, hu]) rfl
      simp [Collaborators.outcome, hu] at this
    | none =>
      simp [Webhook.handler, handleScale, wf, hu, Collaborators.withCatalog,
        Outcome.status]
      exact ⟨[_], _, rfl, rfl, by simp [Call.isCatalogWrite]⟩

/-- C4 at the scale of `api` in `prod` with the catalog down. -/
theorem catalog_failure_not_fatal_witness :
    Webhook.scale.wellFormed scaleRequest = true ∧
    (∀ c ∈ (Webhook.scale.handler demoGlobals catalogDown "2024-05-01T10:00:00Z"
        (.ok scaleRequest)).calls, c.isCatalogWrite = false → catalogDown.outcome c = none) ∧
    catalogDown.updatePortEntity "api-prod" "deployment"
      (scaleUpdateData 5 "500m" "" "2024-05-01T10:00:00Z") = some "port.io 503" ∧
    (handleScale demoGlobals catalogDown "2024-05-01T10:00:00Z"
      (.ok scaleRequest)).resp.status = some 200 ∧
    (handleScale demoGlobals catalogDown "2024-05-01T10:00:00Z" (.ok scaleRequest)).resp =
      (handleScale demoGlobals sourceHelpers "2024-05-01T10:00:00Z" (.ok scaleRequest)).resp :=
  ⟨by decide, by decide, by decide,
    (catalog_failure_not_fatal .scale demoGlobals catalogDown "2024-05-01T10:00:00Z"
      scaleRequest (by decide) (by decide)).1,
    ((catalog_failure_not_fatal .scale demoGlobals catalogDown "2024-05-01T10:00:00Z"
      scaleRequest (by decide) (by decide)).2.2 sourceHelpers.createPortEntity
      sourceHelpers.updatePortEntity).1.symm⟩

/-- C5, as stated, fails: a promote of `api` from `staging` to `prod` served as the very
first request, when no deployment of `api` to `staging` was ever recorded, is not
rejected: the handler replies HTTP 200 and writes the manifest and the catalog entity of
`api-prod`, with the version `v9` that the request payload carries. -/
theorem promote_without_source_record_counterexample :
    (serve demoGlobals sourceHelpers
      [⟨.promote, "2024-05-01T10:00:00Z", .ok promoteRequest⟩]).map
        (fun r => (r.calls, r.resp.status)) =
      [([Call.updateImageVersion "api" "prod" "v9",
         Call.createPortEntity "api-prod" "deployment"
          [("service", .string "api"), ("environment", .string "prod"),
           ("version", .string "v9"), ("status", .string "Progressing"),
           ("sync_status", .string "OutOfSync"), ("promoted_from", .string "staging"),
           ("tests_run", .bool true), ("promoted_at", .string "2024-05-01T10:00:00Z")]],
        some 200)] := by
  decide

theorem assertString_eq_some {x : Value} {s : String} (hx : assertString x = some s) :
    x = .string s := by
  cases x <;> simp [assertString] at hx
  rw [hx]

theorem promoteFields_eq_some {payload : PortWebhookPayload} {src s v tgt : String} {rt : Bool}
    (wf : promoteFields payload = some (src, s, v, tgt, rt)) :
    index payload.Entity.Properties "environment" = .string src ∧
    index payload.Entity.Properties "service" = .string s ∧
    index payload.Entity.Properties "version" = .string v ∧
    index payload.Properties "target_environment" = .string tgt := by
  unfold promoteFields at wf
  split at wf
  · simp at wf
  · rename_i h1
    split at wf
    · simp at wf
    · rename_i h2
      split at wf
      · simp at wf
      · rename_i h3
        split at wf
        · simp at wf
        · rename_i h4
          split at wf
          · simp at wf
          · simp only [Option.some.injEq, Prod.mk.injEq] at wf
            obtain ⟨rfl, rfl, rfl, rfl, _⟩ := wf
            exact ⟨assertString_eq_some h1, assertString_eq_some h2,
              assertString_eq_some h3, assertString_eq_some h4⟩

/-- C5 (amended): `handlePromote` consults no deployment record. For every well-formed
promote request the service, the source environment and the promoted version are the
ones carried by the request payload (`entity.properties`) and the target environment the
one of `properties.target_environment`; the handler writes the manifest of the target
environment with that version, and replies HTTP 500 with the error and no catalog write
when that write fails, and HTTP 200 after writing the catalog entity of `service-target`
with that version when it succeeds. -/
theorem promote_uses_payload_version (g : Globals) (h : Collaborators) (now : String)
    (payload : PortWebhookPayload) (src s v tgt : String) (rt : Bool)
    (wf : promoteFields payload = some (src, s, v, tgt, rt)) :
    index payload.Entity.Properties "version" = .string v ∧
    index payload.Entity.Properties "environment" = .string src ∧
    index payload.Entity.Properties "service" = .string s ∧
    index payload.Properties "target_environment" = .string tgt ∧
    (∀ err, h.updateImageVersion s tgt v = some err →
      (handlePromote g h now (.ok payload)).resp = .json 500 [("error", .string err)] ∧
      (handlePromote g h now (.ok payload)).calls = [Call.updateImageVersion s tgt v]) ∧
    (h.updateImageVersion s tgt v = none →
      (handlePromote g h now (.ok payload)).resp =
        .json 200
          [("message", .string "Promotion initiated"), ("service", .string s),
           ("from", .string src), ("to", .string tgt), ("version", .string v),
           ("tests_run", .bool rt)] ∧
      (handlePromote g h now (.ok payload)).calls =
        [Call.updateImageVersion s tgt v,
         Call.createPortEntity (s ++ "-" ++ tgt) "deployment"
          [("service", .string s), ("environment", .string tgt), ("version", .string v),
           ("status", .string "Progressing"), ("sync_status", .string "OutOfSync"),
           ("promoted_from", .string src), ("tests_run", .bool rt),
           ("promoted_at", .string now)]]) := by
  refine ⟨(promoteFields_eq_some wf).2.2.1, (promoteFields_eq_some wf).1,
    (promoteFields_eq_some wf).2.1, (promoteFields_eq_some wf).2.2.2, ?_, ?_⟩
  · intro err hu
    simp [handlePromote, wf, hu, errorReply]
  · intro hu
    simp [handlePromote, wf, hu, sprintfDash]

/-- C5 (amended) at the promote of `api` from `staging` to `prod`. -/
theorem promote_uses_payload_version_witness :
    promoteFields promoteRequest = some ("staging", "api", "v9", "prod", true) ∧
    index promoteRequest.Entity.Properties "version" = .string "v9" ∧
    index promoteRequest.Entity.Properties "service" = .string "api" ∧
    (sourceHelpers.updateImageVersion "api" "prod" "v9" = none →
      (handlePromote demoGlobals sourceHelpers "2024-05-01T10:00:00Z"
        (.ok promoteRequest)).resp =
        .json 200
          [("message", .string "Promotion initiated"), ("service", .string "api"),
           ("from", .string "staging"), ("to", .string "prod"), ("version", .string "v9"),
           ("tests_run", .bool true)] ∧
      (handlePromote demoGlobals sourceHelpers "2024-05-01T10:00:00Z"
        (.ok promoteRequest)).calls =
        [Call.updateImageVersion "api" "prod" "v9",
         Call.createPortEntity ("api" ++ "-" ++ "prod") "deployment"
          [("service", .string "api"), ("environment", .string "prod"),
           ("version", .string "v9"), ("status", .string "Progressing"),
           ("sync_status", .string "OutOfSync"), ("promoted_from", .string "staging"),
           ("tests_run", .bool true), ("promoted_at", .string "2024-05-01T10:00:00Z")]]) :=
  ⟨by decide,
    (promote_uses_payload_version demoGlobals sourceHelpers "2024-05-01T10:00:00Z"
      promoteRequest "staging" "api" "v9" "prod" true (by decide)).1,
    (promote_uses_payload_version demoGlobals sourceHelpers "2024-05-01T10:00:00Z"
      promoteRequest "staging" "api" "v9" "prod" true (by decide)).2.2.1,
    (promote_uses_payload_version demoGlobals sourceHelpers "2024-05-01T10:00:00Z"
      promoteRequest "staging" "api" "v9" "prod" true (by decide)).2.2.2.2.2⟩

/-- C6, as stated, fails: the successful rollback of `api` in `prod` writes the catalog
entity with status `Progressing`, not `RolledBack`. -/
theorem rollback_status_counterexample :
    (handleRollback demoGlobals sourceHelpers "2024-05-01T10:00:00Z"
      (.ok rollbackRequest)).resp.status = some 200 ∧
    (handleRollback demoGlobals sourceHelpers "2024-05-01T10:00:00Z"
      (.ok rollbackRequest)).calls.getLast? =
      some (Call.updatePortEntity "api-prod" "deployment"
        (rollbackProperties "v1.0.0" "bad release" "2024-05-01T10:00:00Z")) ∧
    (rollbackProperties "v1.0.0" "bad release" "2024-05-01T10:00:00Z").lookup "status" =
      some (.string "Progressing") ∧
    (rollbackProperties "v1.0.0" "bad release" "2024-05-01T10:00:00Z").lookup "status" ≠
      some (.string "RolledBack") := by
  decide

/-- Every catalog write `handleDeploy` makes, for any request and any helpers, carries
status `Progressing` and neither `rollback_reason` nor `rolled_back_at`. -/
theorem handleDeploy_catalog_write (g : Globals) (h : Collaborators) (now : String)
    (bind : Bind) (id bp : String) (properties : Props)
    (hc : Call.createPortEntity id bp properties ∈ (handleDeploy g h now bind).calls ∨
      Call.updatePortEntity id bp properties ∈ (handleDeploy g h now bind).calls) :
    properties.lookup "status" = some (.string "Progressing") ∧
    properties.lookup "rollback_reason" = none ∧
    properties.lookup "rolled_back_at" = none := by
  cases bind with
  | error err => simp [handleDeploy] at hc
  | ok payload =>
    cases hf : deployFields payload with
    | none => simp [handleDeploy, hf] at hc
    | some fields =>
      obtain ⟨s, e, v, a⟩ := fields
      cases hu : h.updateImageVersion s e v with
      | some err => simp [handleDeploy, hf, hu] at hc
      | none =>
        cases ha : h.createArgoApplication { Name := s } e with
        | some err => simp [handleDeploy, hf, hu, ha] at hc
        | none =>
          simp [handleDeploy, hf, hu, ha] at hc
          obtain ⟨_, _, rfl⟩ := hc
          exact ⟨rfl, rfl, rfl⟩

/-- A deploy that `handleDeploy` answers with HTTP 200 ends with its catalog write. -/
theorem handleDeploy_ok_last_call (g : Globals) (h : Collaborators) (now : String)
    (bind : Bind) (ok : (handleDeploy g h now bind).resp.status = some 200) :
    ∃ id properties, (handleDeploy g h now bind).calls.getLast? =
      some (Call.createPortEntity id "deployment" properties) := by
  cases bind with
  | error err => simp [handleDeploy, errorReply, Outcome.status] at ok
  | ok payload =>
    cases hf : deployFields payload with
    | none => simp [handleDeploy, hf, Outcome.status] at ok
    | some fields =>
      obtain ⟨s, e, v, a⟩ := fields
      cases hu : h.updateImageVersion s e v with
      | some err => simp [handleDeploy, hf, hu, errorReply, Outcome.status] at ok
      | none =>
        cases ha : h.createArgoApplication { Name := s } e with
        | some err => simp [handleDeploy, hf, hu, ha, errorReply, Outcome.status] at ok
        | none =>
          exact ⟨sprintfDash s e, deployProperties s e v a now,
            by simp [handleDeploy, hf, hu, ha]⟩

/-- C6 (amended): for every rollback request that `handleRollback` answers with HTTP 200,
the last call is the catalog update of `service-environment` and the status it writes is
`Progressing`, the same status a forward deploy writes: every catalog write of
`handleDeploy` carries status `Progressing`, and a deploy answered with HTTP 200 ends
with such a write. The rollback differs from a deploy in the catalog by the keys
`rollback_reason` and `rolled_back_at`, which no catalog write of `handleDeploy` has. -/
theorem rollback_writes_progressing (g : Globals) (h : Collaborators) (now : String)
    (bind : Bind) (ok : (handleRollback g h now bind).resp.status = some 200) :
    (∃ s e v reason,
      (handleRollback g h now bind).calls.getLast? =
        some (Call.updatePortEntity (sprintfDash s e) "deployment"
          (rollbackProperties v reason now)) ∧
      (rollbackProperties v reason now).lookup "status" = some (.string "Progressing") ∧
      (rollbackProperties v reason now).lookup "rollback_reason" = some (.string reason) ∧
      (rollbackProperties v reason now).lookup "rolled_back_at" = some (.string now)) ∧
    (∀ (g2 : Globals) (h2 : Collaborators) (t : String) (bind2 : Bind) (id bp : String)
        (properties : Props),
      (Call.createPortEntity id bp properties ∈ (handleDeploy g2 h2 t bind2).calls ∨
        Call.updatePortEntity id bp properties ∈ (handleDeploy g2 h2 t bind2).calls) →
      properties.lookup "status" = some (.string "Progressing") ∧
      properties.lookup "rollback_reason" = none ∧
      properties.lookup "rolled_back_at" = none) ∧
    (∀ (g2 : Globals) (h2 : Collaborators) (t : String) (bind2 : Bind),
      (handleDeploy g2 h2 t bind2).resp.status = some 200 →
      ∃ id properties, (handleDeploy g2 h2 t bind2).calls.getLast? =
        some (Call.createPortEntity id "deployment" properties)) ∧
    (∀ s e v a t,
      (deployProperties s e v a t).lookup "status" = some (.string "Progressing") ∧
      (deployProperties s e v a t).lookup "rollback_reason" = none ∧
      (deployProperties s e v a t).lookup "rolled_back_at" = none) := by
  refine ⟨?_, fun g2 h2 t bind2 id bp properties hc =>
      handleDeploy_catalog_write g2 h2 t bind2 id bp properties hc,
    fun g2 h2 t bind2 ok2 => handleDeploy_ok_last_call g2 h2 t bind2 ok2,
    fun s e v a t => ⟨rfl, rfl, rfl⟩⟩
  cases bind with
  | error err => simp [handleRollback, errorReply, Outcome.status] at ok
  | ok payload =>
    cases hf : rollbackFields payload with
    | none => simp [handleRollback, hf, Outcome.status] at ok
    | some fields =>
      obtain ⟨s, e, reason, tgt⟩ := fields
      cases tgt with
      | some v =>
        cases hu : h.updateImageVersion s e v with
        | some err => simp [handleRollback, rollbackTo, hf, hu, errorReply, Outcome.status] at ok
        | none =>
          refine ⟨s, e, v, reason, ?_, rfl, rfl, rfl⟩
          simp [handleRollback, rollbackTo, hf, hu]
      | none =>
        rcases hp : h.getPreviousVersion s e with ⟨v, perr⟩
        cases perr with
        | some err => simp [handleRollback, hf, hp, errorReply, Outcome.status] at ok
        | none =>
          cases hu : h.updateImageVersion s e v with
          | some err =>
            simp [handleRollback, rollbackTo, hf, hp, hu, errorReply, Outcome.status] at ok
          | none =>
            refine ⟨s, e, v, reason, ?_, rfl, rfl, rfl⟩
            simp [handleRollback, rollbackTo, hf, hp, hu]


/-- C6 (amended) at the rollback of `api` in `prod`. -/
theorem rollback_writes_progressing_witness :
    (handleRollback demoGlobals sourceHelpers "2024-05-01T10:00:00Z"
      (.ok rollbackRequest)).resp.status = some 200 ∧
    ∃ s e v reason,
      (handleRollback demoGlobals sourceHelpers "2024-05-01T10:00:00Z"
        (.ok rollbackRequest)).calls.getLast? =
        some (Call.updatePortEntity (sprintfDash s e) "deployment"
          (rollbackProperties v reason "2024-05-01T10:00:00Z")) ∧
      (rollbackProperties v reason "2024-05-01T10:00:00Z").lookup "status" =
        some (.string "Progressing") ∧
      (rollbackProperties v reason "2024-05-01T10:00:00Z").lookup "rollback_reason" =
        some (.string reason) ∧
      (rollbackProperties v reason "2024-05-01T10:00:00Z").lookup "rolled_back_at" =
        some (.string "2024-05-01T10:00:00Z") :=
  ⟨by decide,
    (rollback_writes_progressing demoGlobals sourceHelpers "2024-05-01T10:00:00Z"
      (.ok rollbackRequest) (by decide)).1⟩

/-- C7, as stated, fails: the create request with `runId` `run-42`, submitted a second
time, is scaffolded again: the second submission makes the same three calls
(`createMicroserviceRepo`, `createArgoApplication`, the catalog update), so the calls
received after two submissions are not those received after one. -/
theorem create_replay_counterexample :
    createRequest.Context.RunID = "run-42" ∧
    ((serve demoGlobals sourceHelpers
      [⟨.createMicroservice, "2024-05-01T10:00:00Z", .ok createRequest⟩,
       ⟨.createMicroservice, "2024-05-01T10:00:05Z", .ok createRequest⟩]).map
        (fun r => r.calls)).getLast? =
      some [Call.createMicroserviceRepo (newManifest "api" "platform" "go" "gin") "basic",
        Call.createArgoApplication (newManifest "api" "platform" "go" "gin") "dev",
        Call.updatePortEntity "api" "microservice"
          [("status", .string "created"),
           ("repository", .string "https://git.example/acme/gitops/services/api"),
           ("argocd_app", .string "api-dev"),
           ("created_at", .string "2024-05-01T10:00:05Z")]] ∧
    callsOf (serve demoGlobals sourceHelpers
      [⟨.createMicroservice, "2024-05-01T10:00:00Z", .ok createRequest⟩,
       ⟨.createMicroservice, "2024-05-01T10:00:05Z", .ok createRequest⟩]) ≠
    callsOf (serve demoGlobals sourceHelpers
      [⟨.createMicroservice, "2024-05-01T10:00:00Z", .ok createRequest⟩]) := by
  decide

/-- C7 (amended): create is not deduplicated. `handleCreateMicroservice` never reads
`context.runId` (its calls and its reply are the same for every context), and every
submission of a well-formed create request whose repository and registry steps succeed
makes the three calls `createMicroserviceRepo`, `createArgoApplication` and the catalog
update again and replies HTTP 200: two submissions make those calls twice. -/
theorem create_replay_repeats (g : Globals) (h : Collaborators) (now later : String)
    (payload : PortWebhookPayload) (s t l f tpl : String)
    (wf : createFields payload = some (s, t, l, f, tpl))
    (repoOk : h.createMicroserviceRepo (newManifest s t l f) tpl = none)
    (registryOk : h.createArgoApplication (newManifest s t l f) "dev" = none) :
    (∀ ctx : PortContext,
      (handleCreateMicroservice g h now (.ok { payload with Context := ctx })).calls =
        (handleCreateMicroservice g h now (.ok payload)).calls ∧
      (handleCreateMicroservice g h now (.ok { payload with Context := ctx })).resp =
        (handleCreateMicroservice g h now (.ok payload)).resp) ∧
    (∃ p1 p2,
      callsOf (serve g h [⟨.createMicroservice, now, .ok payload⟩,
          ⟨.createMicroservice, later, .ok payload⟩]) =
        [Call.createMicroserviceRepo (newManifest s t l f) tpl,
         Call.createArgoApplication (newManifest s t l f) "dev",
         Call.updatePortEntity s "microservice" p1,
         Call.createMicroserviceRepo (newManifest s t l f) tpl,
         Call.createArgoApplication (newManifest s t l f) "dev",
         Call.updatePortEntity s "microservice" p2]) ∧
    (serve g h [⟨.createMicroservice, now, .ok payload⟩,
        ⟨.createMicroservice, later, .ok payload⟩]).map (fun r => r.resp.status) =
      [some 200, some 200] := by
  have wf2 : ∀ ctx : PortContext,
      createFields { payload with Context := ctx } = some (s, t, l, f, tpl) := fun ctx => wf
  refine ⟨fun ctx => ?_, ?_, ?_⟩
  · simp [handleCreateMicroservice, wf, wf2 ctx, repoOk, registryOk]
  · simp [serve, callsOf, Webhook.handler, handleCreateMicroservice, wf, repoOk, registryOk]
  · simp [serve, Webhook.handler, handleCreateMicroservice, wf, repoOk, registryOk,
      Outcome.status]

/-- C7 (amended) at the create request of `api` submitted twice. -/
theorem create_replay_repeats_witness :
    createFields createRequest = some ("api", "platform", "go", "gin", "basic") ∧
    sourceHelpers.createMicroserviceRepo (newManifest "api" "platform" "go" "gin") "basic"
      = none ∧
    sourceHelpers.createArgoApplication (newManifest "api" "platform" "go" "gin") "dev"
      = none ∧
    (serve demoGlobals sourceHelpers
      [⟨.createMicroservice, "2024-05-01T10:00:00Z", .ok createRequest⟩,
       ⟨.createMicroservice, "2024-05-01T10:00:05Z", .ok createRequest⟩]).map
        (fun r => r.resp.status) = [some 200, some 200] :=
  ⟨by decide, by decide, by decide,
    (create_replay_repeats demoGlobals sourceHelpers "2024-05-01T10:00:00Z"
      "2024-05-01T10:00:05Z" createRequest "api" "platform" "go" "gin" "basic"
      (by decide) (by decide) (by decide)).2.2⟩

theorem scaleUpdateData_keys (n : Int) (cpu mem now : String) :
    (scaleUpdateData n cpu mem now).keys =
      ["replicas", "scaled_at"] ++ (if cpu = "" then [] else ["cpu_limit"]) ++
        (if mem = "" then [] else ["memory_limit"]) := by
  by_cases hc : cpu = "" <;> by_cases hm : mem = "" <;>
    simp [scaleUpdateData, Props.set, Props.keys, hc, hm]

/-- C8: `handleScale` never calls `updateImageVersion`, whatever the request and the
helpers; and for a well-formed scale request whose manifest step succeeds its calls are
`updateDeploymentResources` and one catalog update, whose property map has exactly the
keys `replicas` and `scaled_at`, then `cpu_limit` when the CPU limit is non-empty and
`memory_limit` when the memory limit is non-empty, and so no `version`, `status` or
`sync_status` key. -/
theorem scale_leaves_version (g : Globals) (h : Collaborators) (now : String) (bind : Bind) :
    (∀ c ∈ (handleScale g h now bind).calls, ∀ s e v, c ≠ Call.updateImageVersion s e v) ∧
    (∀ id bp properties,
      (Call.updatePortEntity id bp properties ∈ (handleScale g h now bind).calls ∨
        Call.createPortEntity id bp properties ∈ (handleScale g h now bind).calls) →
      "version" ∉ properties.keys ∧ "status" ∉ properties.keys ∧
        "sync_status" ∉ properties.keys) ∧
    (∀ payload s e n cpu mem, bind = .ok payload →
      scaleFields payload = some (s, e, n, cpu, mem) →
      h.updateDeploymentResources s e n cpu mem = none →
      (handleScale g h now bind).calls =
        [Call.updateDeploymentResources s e n cpu mem,
         Call.updatePortEntity (sprintfDash s e) "deployment"
          (scaleUpdateData n cpu mem now)] ∧
      (scaleUpdateData n cpu mem now).keys =
        ["replicas", "scaled_at"] ++ (if cpu = "" then [] else ["cpu_limit"]) ++
          (if mem = "" then [] else ["memory_limit"])) := by
  refine ⟨?_, ?_, ?_⟩
  · intro c hc s e v
    cases bind with
    | error err => simp [handleScale] at hc
    | ok payload =>
      cases hf : scaleFields payload with
      | none => simp [handleScale, hf] at hc
      | some fields =>
        obtain ⟨s1, e1, n, cpu, mem⟩ := fields
        cases hu : h.updateDeploymentResources s1 e1 n cpu mem <;>
          simp [handleScale, hf, hu] at hc <;> rcases hc with rfl | rfl <;> simp
  · intro id bp properties hc
    cases bind with
    | error err => simp [handleScale] at hc
    | ok payload =>
      cases hf : scaleFields payload with
      | none => simp [handleScale, hf] at hc
      | some fields =>
        obtain ⟨s1, e1, n, cpu, mem⟩ := fields
        cases hu : h.updateDeploymentResources s1 e1 n cpu mem with
        | some err => simp [handleScale, hf, hu] at hc
        | none =>
          simp [handleScale, hf, hu] at hc
          obtain ⟨_, _, rfl⟩ := hc
          rw [scaleUpdateData_keys]
          by_cases hc : cpu = "" <;> by_cases hm : mem = "" <;> simp [hc, hm]
  · intro payload s e n cpu mem hb hf hu
    subst hb
    exact ⟨by simp [handleScale, hf, hu], scaleUpdateData_keys n cpu mem now⟩

/-- C8 at the scale of `api` in `prod` to 5 replicas with a CPU limit. -/
theorem scale_leaves_version_witness :
    scaleFields scaleRequest = some ("api", "prod", 5, "500m", "") ∧
    (handleScale demoGlobals sourceHelpers "2024-05-01T10:00:00Z" (.ok scaleRequest)).calls =
      [Call.updateDeploymentResources "api" "prod" 5 "500m" "",
       Call.updatePortEntity (sprintfDash "api" "prod") "deployment"
        (scaleUpdateData 5 "500m" "" "2024-05-01T10:00:00Z")] ∧
    (scaleUpdateData 5 "500m" "" "2024-05-01T10:00:00Z").keys =
      ["replicas", "scaled_at"] ++ (if "500m" = "" then [] else ["cpu_limit"]) ++
        (if "" = "" then [] else ["memory_limit"]) :=
  ⟨by decide,
    (scale_leaves_version demoGlobals sourceHelpers "2024-05-01T10:00:00Z"
      (.ok scaleRequest)).2.2 scaleRequest "api" "prod" 5 "500m" "" rfl (by decide)
      (by decide)⟩

theorem assertString_index_eq_none (m : Props) (k : String) :
    assertString (index m k) = none ↔ missingOrNotString m k = true := by
  unfold index missingOrNotString
  cases hl : m.lookup k with
  | none => simp [assertString]
  | some x => cases x <;> simp [assertString, Value.isString]

theorem optBool_eq_none (m : Props) (k : String) (d : Bool) :
    optBool m k d = none ↔ presentNotBool m k = true := by
  unfold optBool presentNotBool
  cases hl : m.lookup k with
  | none => simp
  | some x => cases x <;> simp [assertBool, Value.isBool]

theorem deployFields_eq_none (payload : PortWebhookPayload) :
    deployFields payload = none ↔ malformedDeploy payload = true := by
  unfold deployFields malformedDeploy
  simp only [Bool.or_eq_true, ← assertString_index_eq_none, ← optBool_eq_none _ _ true]
  cases h1 : assertString (index payload.Properties "service") <;>
  cases h2 : assertString (index payload.Properties "environment") <;>
  cases h3 : assertString (index payload.Properties "version") <;>
  cases h4 : optBool payload.Properties "auto_sync" true <;> simp

/-- C9, as stated, fails: the deploy request whose body parsed but has no properties is
malformed, and `handleDeploy` answers it with no validation error: it fails through the
unchecked type assertion of `service` (a panic). -/
theorem deploy_malformed_counterexample :
    malformedDeploy emptyDeployRequest = true ∧
    (handleDeploy demoGlobals sourceHelpers "2024-05-01T10:00:00Z"
      (.ok emptyDeployRequest)).resp = Outcome.panic ∧
    (handleDeploy demoGlobals sourceHelpers "2024-05-01T10:00:00Z"
      (.ok emptyDeployRequest)).resp.status ≠ some 400 := by
  decide

/-- C9 (amended): for every deploy request whose body parses but whose properties are
malformed or incomplete, `handleDeploy` issues no call to any helper and writes no reply
of its own, neither a validation error nor a success: the request ends in the panic of
the failed type assertion. A request that is not malformed never panics. -/
theorem deploy_malformed_no_calls (g : Globals) (h : Collaborators) (now : String)
    (payload : PortWebhookPayload) :
    (malformedDeploy payload = true →
      (handleDeploy g h now (.ok payload)).calls = [] ∧
      (handleDeploy g h now (.ok payload)).resp = Outcome.panic ∧
      (handleDeploy g h now (.ok payload)).resp.status = none) ∧
    (malformedDeploy payload = false →
      (handleDeploy g h now (.ok payload)).resp ≠ Outcome.panic) := by
  constructor
  · intro hm
    have hf := (deployFields_eq_none payload).mpr hm
    simp [handleDeploy, hf, Outcome.status]
  · intro hm
    cases hf : deployFields payload with
    | none => rw [(deployFields_eq_none payload).mp hf] at hm; cases hm
    | some fields =>
      obtain ⟨s, e, v, a⟩ := fields
      cases hu : h.updateImageVersion s e v <;>
        cases ha : h.createArgoApplication { Name := s } e <;>
        simp [handleDeploy, hf, hu, ha, errorReply]

/-- C9 (amended) at the deploy request with no properties. -/
theorem deploy_malformed_no_calls_witness :
    malformedDeploy emptyDeployRequest = true ∧
    (handleDeploy demoGlobals sourceHelpers "2024-05-01T10:00:00Z"
      (.ok emptyDeployRequest)).calls = [] ∧
    (handleDeploy demoGlobals sourceHelpers "2024-05-01T10:00:00Z"
      (.ok emptyDeployRequest)).resp = Outcome.panic ∧
    (handleDeploy demoGlobals sourceHelpers "2024-05-01T10:00:00Z"
      (.ok emptyDeployRequest)).resp.status = none :=
  ⟨by decide,
    (deploy_malformed_no_calls demoGlobals sourceHelpers "2024-05-01T10:00:00Z"
      emptyDeployRequest).1 (by decide)⟩

theorem append_cons_inj_left {α : Type} (c : α) :
    ∀ (l1 l2 r1 r2 : List α), c ∉ l1 → c ∉ l2 → l1 ++ c :: r1 = l2 ++ c :: r2 →
      l1 = l2 ∧ r1 = r2
  | [], [], r1, r2, _, _, h => by simpa using h
  | [], y :: ys, r1, r2, _, h2, h => by
      simp at h
      exact absurd (by simp [h.1]) h2
  | x :: xs, [], r1, r2, h1, _, h => by
      simp at h
      exact absurd (by simp [h.1]) h1
  | x :: xs, y :: ys, r1, r2, h1, h2, h => by
      simp at h
      have ih := append_cons_inj_left c xs ys r1 r2
        (fun hc => h1 (List.mem_cons_of_mem _ hc)) (fun hc => h2 (List.mem_cons_of_mem _ hc))
        h.2
      exact ⟨by rw [h.1, ih.1], ih.2⟩

theorem append_cons_inj_right {α : Type} (c : α) (l1 l2 r1 r2 : List α)
    (h1 : c ∉ r1) (h2 : c ∉ r2) (h : l1 ++ c :: r1 = l2 ++ c :: r2) :
    l1 = l2 ∧ r1 = r2 := by
  have hr := congrArg List.reverse h
  simp only [List.reverse_append, List.reverse_cons, List.append_assoc,
    List.singleton_append] at hr
  have := append_cons_inj_left c r1.reverse r2.reverse l1.reverse l2.reverse
    (by simpa using h1) (by simpa using h2) hr
  exact ⟨List.reverse_injective this.2, List.reverse_injective this.1⟩

theorem sprintfDash_data (a b : String) : (sprintfDash a b).data = a.data ++ '-' :: b.data := by
  simp [sprintfDash, String.data_append]

/-- C10, as stated, fails: the distinct deployment keys (`a-b`, `c`) and (`a`, `b-c`)
derive the same identifier `a-b-c`. -/
theorem deploymentID_collision_counterexample :
    (("a-b", "c") : String × String) ≠ ("a", "b-c") ∧
    sprintfDash "a-b" "c" = sprintfDash "a" "b-c" := by
  decide

/-- C10 (amended): the identifier `service-environment` is injective on the deployment
keys whose environment names contain no `-`, and on those whose service names contain
no `-`: two distinct such keys never derive the same identifier. -/
theorem deploymentID_injective (s1 e1 s2 e2 : String)
    (noDash : ('-' ∉ e1.data ∧ '-' ∉ e2.data) ∨ ('-' ∉ s1.data ∧ '-' ∉ s2.data))
    (distinct : (s1, e1) ≠ (s2, e2)) :
    sprintfDash s1 e1 ≠ sprintfDash s2 e2 := by
  intro heq
  have hd : s1.data ++ '-' :: e1.data = s2.data ++ '-' :: e2.data := by
    rw [← sprintfDash_data, ← sprintfDash_data, heq]
  have key : s1.data = s2.data ∧ e1.data = e2.data := by
    rcases noDash with ⟨h1, h2⟩ | ⟨h1, h2⟩
    · exact append_cons_inj_right '-' _ _ _ _ h1 h2 hd
    · exact append_cons_inj_left '-' _ _ _ _ h1 h2 hd
  exact distinct (by rw [String.ext key.1, String.ext key.2])

/-- C10 (amended) at the keys (`api`, `prod`) and (`api`, `staging`). -/
theorem deploymentID_injective_witness :
    (('-' ∉ "prod".data ∧ '-' ∉ "staging".data) ∨ ('-' ∉ "api".data ∧ '-' ∉ "api".data)) ∧
    (("api", "prod") : String × String) ≠ ("api", "staging") ∧
    sprintfDash "api" "prod" ≠ sprintfDash "api" "staging" :=
  ⟨by decide, by decide,
    deploymentID_injective "api" "prod" "api" "staging" (by decide) (by decide)⟩

/-- C1 (the code at the failing input): for the rollback request of `api` in `prod` with
no `target_version`, the specification's rule on the history
`[v1, v2, v3(Scale carrying v2), v4]` gives `v2`, while `handleRollback` takes the
constant `v1.0.0` that `getPreviousVersion` returns for every deployment, and writes it
to the manifest and the catalog. -/
theorem rollback_target_is_constant :
    specRollbackTarget exampleHistory = some "v2" ∧
    explicitTarget rollbackRequest.Properties = some none ∧
    (∀ s e, getPreviousVersion s e = ("v1.0.0", none)) ∧
    (handleRollback demoGlobals sourceHelpers "2024-05-01T10:00:00Z"
      (.ok rollbackRequest)).calls =
      [Call.getPreviousVersion "api" "prod",
       Call.updateImageVersion "api" "prod" "v1.0.0",
       Call.updatePortEntity "api-prod" "deployment"
        (rollbackProperties "v1.0.0" "bad release" "2024-05-01T10:00:00Z")] :=
  ⟨by decide, by decide, fun _ _ => rfl, by decide⟩

end Controller
